import Mathlib

/-!
Shallow embedding of the p5.js WebGL lighting module
(`ambientLight`, `directionalLight`, `pointLight`) and of the image
module (`imageMode`, `_getTintedImageCanvas`, `image`).

JavaScript numbers are modelled as `Rat`; the externally supplied
color resolver (`p5.prototype.color`, returning `color._array`, four
normalized channels) is an abstract function parameter; the WebGL
context is modelled as a trace of GL operations (program activations
and uniform writes), most recent first.
-/

namespace P5

/-- A JavaScript value as far as this module inspects one: a number, a
string, a vector-like object exposing numeric `x`, `y`, `z` fields
(e.g. a p5.Vector), `undefined`, or `null`. -/
inductive JSVal where
  | num (v : Rat)
  | str (s : String)
  | vecObj (x y z : Rat)
  | undefined
  | null
deriving DecidableEq, Repr

/-- `typeof v === 'number'` in JavaScript. -/
def typeofNumber : JSVal → Bool
  | .num _ => true
  | _ => false

/-- JavaScript array indexing `args[i]` on an argument list: an index
outside the bounds (including a negative one) yields `undefined`. -/
def jsIndex (args : List JSVal) (i : Int) : JSVal :=
  if 0 ≤ i then args.getD i.toNat .undefined else .undefined

/-- JavaScript property access `v.f`: reading a property of `undefined`
or `null` throws a TypeError; a number or a string has no `x`, `y`, `z`
properties, so access yields `undefined` without error; a vector-like
object yields its numeric field. -/
def getField : JSVal → String → Except String JSVal
  | .undefined, _ => .error "TypeError"
  | .null, _ => .error "TypeError"
  | .num _, _ => .ok .undefined
  | .str _, _ => .ok .undefined
  | .vecObj x y z, f =>
    if f = "x" then .ok (.num x)
    else if f = "y" then .ok (.num y)
    else if f = "z" then .ok (.num z)
    else .ok .undefined

/-- The geometry-extraction tail of `directionalLight` / `pointLight`
(source lines 149-169 and 250-270): if the last argument is numeric the
vector is the last three arguments, otherwise the `x`, `y`, `z` fields
of the last argument are read (a thrown TypeError propagates). -/
def extractVector (args : List JSVal) : Except String (JSVal × JSVal × JSVal) :=
  let n : Int := args.length
  if typeofNumber (jsIndex args (n - 1)) then
    .ok (jsIndex args (n - 3), jsIndex args (n - 2), jsIndex args (n - 1))
  else do
    let x ← getField (jsIndex args (n - 1)) "x"
    let y ← getField (jsIndex args (n - 1)) "y"
    let z ← getField (jsIndex args (n - 1)) "z"
    .ok (x, y, z)

/-- A value written to a shader uniform: `gl.uniform1i`,
`gl.uniform3f`, or `gl.uniform4f`. -/
inductive UniformValue where
  | u1i (v : Nat)
  | u3f (x y z : JSVal)
  | u4f (x y z w : Rat)
deriving DecidableEq, Repr

/-- One operation performed on the GL context: activating a shader
program (identified by its vertex/fragment source names, as resolved by
`_getShader`) or writing a named uniform. -/
inductive GLOp where
  | useProgramOp (vert frag : String)
  | uniformOp (uname : String) (v : UniformValue)
deriving DecidableEq, Repr

/-- The GL context state: the trace of operations, most recent first. -/
structure GLState where
  ops : List GLOp
deriving DecidableEq, Repr

def GLState.useProgram (gl : GLState) (vert frag : String) : GLState :=
  ⟨.useProgramOp vert frag :: gl.ops⟩

def GLState.uniform1i (gl : GLState) (uname : String) (v : Nat) : GLState :=
  ⟨.uniformOp uname (.u1i v) :: gl.ops⟩

def GLState.uniform3f (gl : GLState) (uname : String) (x y z : JSVal) : GLState :=
  ⟨.uniformOp uname (.u3f x y z) :: gl.ops⟩

def GLState.uniform4f (gl : GLState) (uname : String) (x y z w : Rat) : GLState :=
  ⟨.uniformOp uname (.u4f x y z w) :: gl.ops⟩

/-- The current value of a named uniform: the most recent write to that
name, if any. -/
def GLState.getUniform (gl : GLState) (uname : String) : Option UniformValue :=
  gl.ops.findSome? fun op =>
    match op with
    | .uniformOp n v => if n = uname then some v else none
    | .useProgramOp _ _ => none

/-- Whether a GL operation is a uniform write (as opposed to a program
activation). -/
def GLOp.isUniformWrite : GLOp → Bool
  | .uniformOp _ _ => true
  | .useProgramOp _ _ => false

/-- The renderer-owned light state (`RendererLightState` of the spec):
the three per-type light counters, plus the GL context they drive. -/
structure Renderer where
  ambientLightCount : Nat
  directionalLightCount : Nat
  pointLightCount : Nat
  gl : GLState
deriving DecidableEq, Repr

/-- A renderer at the start of a frame: all counters zero, empty GL
trace. -/
def initRenderer : Renderer := ⟨0, 0, 0, ⟨[]⟩⟩

/-- The external Color Resolver contract (`p5.prototype.color` followed
by `._array`): heterogeneous arguments to four channel values. -/
abbrev ColorResolver := List JSVal → Rat × Rat × Rat × Rat

/-- The first three (RGB) channels of a resolved color. -/
def rgbOf (c : Rat × Rat × Rat × Rat) : Rat × Rat × Rat := (c.1, c.2.1, c.2.2.1)

/-- `p5.prototype.ambientLight` (source lines 65-94): activate the
shared lighting shader, write the resolved color into
`uAmbientColor[count]` (count read before increment), write the default
material color, increment the counter, write the post-increment counter
into `uAmbientLightCount`.  The color is resolved from the full
argument list. -/
def ambientLight (resolveColor : ColorResolver) (args : List JSVal)
    (r : Renderer) : Renderer :=
  let gl := r.gl.useProgram "lightVert" "lightTextureFrag"
  let c := resolveColor args
  let gl := gl.uniform3f ("uAmbientColor[" ++ toString r.ambientLightCount ++ "]")
    (.num c.1) (.num c.2.1) (.num c.2.2.1)
  let gl := gl.uniform4f "uMaterialColor" 1 1 1 1
  let newCount := r.ambientLightCount + 1
  let gl := gl.uniform1i "uAmbientLightCount" newCount
  { r with ambientLightCount := newCount, gl := gl }

/-- `p5.prototype.directionalLight` (source lines 131-188).  The color
is resolved from `[v1, v2, v3]`, the first three positional arguments,
always.  A TypeError thrown while reading the trailing argument's
fields propagates, carrying the GL state as already mutated by the
preceding writes. -/
def directionalLight (resolveColor : ColorResolver) (args : List JSVal)
    (r : Renderer) : Except (String × Renderer) Renderer :=
  let gl := r.gl.useProgram "lightVert" "lightTextureFrag"
  let c := resolveColor [jsIndex args 0, jsIndex args 1, jsIndex args 2]
  let gl := gl.uniform3f
    ("uDirectionalColor[" ++ toString r.directionalLightCount ++ "]")
    (.num c.1) (.num c.2.1) (.num c.2.2.1)
  match extractVector args with
  | .error e => .error (e, { r with gl := gl })
  | .ok (x, y, z) =>
    let gl := gl.uniform3f
      ("uLightingDirection[" ++ toString r.directionalLightCount ++ "]") x y z
    let gl := gl.uniform4f "uMaterialColor" 1 1 1 1
    let newCount := r.directionalLightCount + 1
    let gl := gl.uniform1i "uDirectionalLightCount" newCount
    .ok { r with directionalLightCount := newCount, gl := gl }

/-- `p5.prototype.pointLight` (source lines 232-289), same shape as
`directionalLight` with the point-light uniform names. -/
def pointLight (resolveColor : ColorResolver) (args : List JSVal)
    (r : Renderer) : Except (String × Renderer) Renderer :=
  let gl := r.gl.useProgram "lightVert" "lightTextureFrag"
  let c := resolveColor [jsIndex args 0, jsIndex args 1, jsIndex args 2]
  let gl := gl.uniform3f
    ("uPointLightColor[" ++ toString r.pointLightCount ++ "]")
    (.num c.1) (.num c.2.1) (.num c.2.2.1)
  match extractVector args with
  | .error e => .error (e, { r with gl := gl })
  | .ok (x, y, z) =>
    let gl := gl.uniform3f
      ("uPointLightLocation[" ++ toString r.pointLightCount ++ "]") x y z
    let gl := gl.uniform4f "uMaterialColor" 1 1 1 1
    let newCount := r.pointLightCount + 1
    let gl := gl.uniform1i "uPointLightCount" newCount
    .ok { r with pointLightCount := newCount, gl := gl }

/-- The renderer state after a call, whether it returned normally or
threw: a thrown TypeError does not roll back the GL writes already
performed (the GL context is global). -/
def stateOf : Except (String × Renderer) Renderer → Renderer
  | .ok r => r
  | .error (_, r) => r

/-- Whether the last element of an argument list is numeric (the
condition dispatching `extractVector` to the numeric-tail path). -/
def lastIsNum (args : List JSVal) : Bool :=
  typeofNumber (jsIndex args ((args.length : Int) - 1))

/-- A sequence of consecutive `ambientLight` calls. -/
def runAmbient (resolveColor : ColorResolver) (argss : List (List JSVal))
    (r : Renderer) : Renderer :=
  argss.foldl (fun s args => ambientLight resolveColor args s) r

/-- A sequence of consecutive `directionalLight` calls, each leaving
the state `stateOf` its result. -/
def runDirectional (resolveColor : ColorResolver) (argss : List (List JSVal))
    (r : Renderer) : Renderer :=
  argss.foldl (fun s args => stateOf (directionalLight resolveColor args s)) r

/-- A sequence of consecutive `pointLight` calls. -/
def runPoint (resolveColor : ColorResolver) (argss : List (List JSVal))
    (r : Renderer) : Renderer :=
  argss.foldl (fun s args => stateOf (pointLight resolveColor args s)) r

/-- A concrete color resolver instance for test evaluations, following
the default RGB interpretation of `p5.prototype.color` (gray, gray
plus alpha, RGB, RGBA; channels normalized to [0,1], alpha defaulting
to full opacity). -/
def testResolve : ColorResolver := fun args =>
  match args with
  | [.num g] => (g / 255, g / 255, g / 255, 1)
  | [.num g, .num a] => (g / 255, g / 255, g / 255, a / 255)
  | [.num v1, .num v2, .num v3] => (v1 / 255, v2 / 255, v3 / 255, 1)
  | [.num v1, .num v2, .num v3, .num a] => (v1 / 255, v2 / 255, v3 / 255, a / 255)
  | _ => (0, 0, 0, 1)

/-! ### Image module (`src/image/loading_displaying.js`) -/

/-- The `CORNER` drawing-mode constant from the external `constants`
module. -/
def CORNER : String := "corner"

/-- The `CORNERS` drawing-mode constant. -/
def CORNERS : String := "corners"

/-- The `CENTER` drawing-mode constant. -/
def CENTER : String := "center"

/-- JavaScript strict equality `v === c` against a string constant:
true exactly when `v` is that string (a non-string value is never
strictly equal to a string). -/
def strictEqStr (v : JSVal) (c : String) : Bool :=
  match v with
  | .str s => s = c
  | _ => false

/-- The sketch-level state read by `imageMode`: the stored
`_imageMode`. -/
structure SketchState where
  _imageMode : JSVal
deriving DecidableEq, Repr

/-- `p5.prototype.imageMode` (source lines 180-186): store `m` when it
is strictly equal to one of the three mode constants; otherwise do
nothing (the function body has no else branch and throws nothing). -/
def imageMode (m : JSVal) (st : SketchState) : SketchState :=
  if strictEqStr m CORNER || strictEqStr m CORNERS || strictEqStr m CENTER then
    { st with _imageMode := m }
  else
    st

/-- A canvas (or the backing canvas of a p5.Image): dimensions plus the
RGBA-interleaved pixel data of its 2d context. -/
structure Canvas where
  width : Nat
  height : Nat
  data : List Rat
deriving DecidableEq, Repr

/-- The tint channel consulted for pixel-data index `i`: channel
`i % 4` of the stored `_tint` color. -/
def tintChannel (t : Rat × Rat × Rat × Rat) : Nat → Rat
  | 0 => t.1
  | 1 => t.2.1
  | 2 => t.2.2.1
  | _ => t.2.2.2

/-- The pixel loop of `_getTintedImageCanvas` (source: `for (i = 0;
i < pixels.length; i += 4)`): reads four source channels at `i` and
writes the scaled channels into `newPixels` at the same indices.  The
source buffer `pixels` is only read, never written. -/
def tintLoop (t : Rat × Rat × Rat × Rat) (pixels : List Rat)
    (newPixels : List Rat) (i : Nat) : List Rat :=
  if i < pixels.length then
    let r := pixels.getD i 0
    let g := pixels.getD (i + 1) 0
    let b := pixels.getD (i + 2) 0
    let a := pixels.getD (i + 3) 0
    let np := ((((newPixels.set i (r * t.1 / 255)).set (i + 1)
      (g * t.2.1 / 255)).set (i + 2) (b * t.2.2.1 / 255)).set (i + 3)
      (a * t.2.2.2 / 255))
    tintLoop t pixels np (i + 4)
  else
    newPixels
termination_by pixels.length - i

/-- `p5.prototype._getTintedImageCanvas` (source lines 137-160):
allocate a fresh canvas with the image's dimensions and a zero-filled
`ImageData` of the same size, run the tint loop from the image's
pixels into it, and return the pair (image's own canvas after the
call, the new tinted canvas).  No statement of the source writes into
the image's canvas or its pixel buffer. -/
def _getTintedImageCanvas (t : Rat × Rat × Rat × Rat) (image : Canvas) :
    Canvas × Canvas :=
  let pixels := image.data
  let newPixels := List.replicate (4 * image.width * image.height) (0 : Rat)
  let result := tintLoop t pixels newPixels 0
  (image, ⟨image.width, image.height, result⟩)

/-- `p5.prototype.image` (source lines 67-91), restricted to what it
does with the image argument: when a tint is set, the canvas passed to
`drawImage` is the tinted copy produced by `_getTintedImageCanvas`;
otherwise it is the image's own canvas.  Returns (the p5.Image's
canvas after the call, the canvas handed to `drawImage`). -/
def imageCall (tint : Option (Rat × Rat × Rat × Rat)) (img : Canvas) :
    Canvas × Canvas :=
  match tint with
  | some t => _getTintedImageCanvas t img
  | none => (img, img)

/-! ### Step lemmas: the explicit effect of one light-registration call -/

lemma ambientLight_eq (res : ColorResolver) (args : List JSVal) (r : Renderer) :
    ambientLight res args r =
      { r with
        ambientLightCount := r.ambientLightCount + 1,
        gl := ⟨.uniformOp "uAmbientLightCount" (.u1i (r.ambientLightCount + 1)) ::
          .uniformOp "uMaterialColor" (.u4f 1 1 1 1) ::
          .uniformOp ("uAmbientColor[" ++ toString r.ambientLightCount ++ "]")
            (.u3f (.num (res args).1) (.num (res args).2.1)
              (.num (res args).2.2.1)) ::
          .useProgramOp "lightVert" "lightTextureFrag" :: r.gl.ops⟩ } := rfl

lemma extractVector_num (args : List JSVal) (h : lastIsNum args = true) :
    extractVector args = .ok (jsIndex args ((args.length : Int) - 3),
      jsIndex args ((args.length : Int) - 2),
      jsIndex args ((args.length : Int) - 1)) := by
  rw [lastIsNum] at h
  simp only [extractVector, h, if_true]

lemma directionalLight_of_extract (res : ColorResolver) (args : List JSVal)
    (r : Renderer) (x y z : JSVal) (h : extractVector args = .ok (x, y, z)) :
    directionalLight res args r =
      .ok { r with
        directionalLightCount := r.directionalLightCount + 1,
        gl := ⟨.uniformOp "uDirectionalLightCount"
            (.u1i (r.directionalLightCount + 1)) ::
          .uniformOp "uMaterialColor" (.u4f 1 1 1 1) ::
          .uniformOp ("uLightingDirection[" ++
            toString r.directionalLightCount ++ "]") (.u3f x y z) ::
          .uniformOp ("uDirectionalColor[" ++
            toString r.directionalLightCount ++ "]")
            (.u3f (.num (res [jsIndex args 0, jsIndex args 1, jsIndex args 2]).1)
              (.num (res [jsIndex args 0, jsIndex args 1, jsIndex args 2]).2.1)
              (.num (res [jsIndex args 0, jsIndex args 1, jsIndex args 2]).2.2.1)) ::
          .useProgramOp "lightVert" "lightTextureFrag" :: r.gl.ops⟩ } := by
  simp only [directionalLight, h]
  rfl

lemma directionalLight_of_error (res : ColorResolver) (args : List JSVal)
    (r : Renderer) (e : String) (h : extractVector args = .error e) :
    directionalLight res args r =
      .error (e, { r with
        gl := ⟨.uniformOp ("uDirectionalColor[" ++
            toString r.directionalLightCount ++ "]")
            (.u3f (.num (res [jsIndex args 0, jsIndex args 1, jsIndex args 2]).1)
              (.num (res [jsIndex args 0, jsIndex args 1, jsIndex args 2]).2.1)
              (.num (res [jsIndex args 0, jsIndex args 1, jsIndex args 2]).2.2.1)) ::
          .useProgramOp "lightVert" "lightTextureFrag" :: r.gl.ops⟩ }) := by
  simp only [directionalLight, h]
  rfl

lemma pointLight_of_extract (res : ColorResolver) (args : List JSVal)
    (r : Renderer) (x y z : JSVal) (h : extractVector args = .ok (x, y, z)) :
    pointLight res args r =
      .ok { r with
        pointLightCount := r.pointLightCount + 1,
        gl := ⟨.uniformOp "uPointLightCount" (.u1i (r.pointLightCount + 1)) ::
          .uniformOp "uMaterialColor" (.u4f 1 1 1 1) ::
          .uniformOp ("uPointLightLocation[" ++
            toString r.pointLightCount ++ "]") (.u3f x y z) ::
          .uniformOp ("uPointLightColor[" ++ toString r.pointLightCount ++ "]")
            (.u3f (.num (res [jsIndex args 0, jsIndex args 1, jsIndex args 2]).1)
              (.num (res [jsIndex args 0, jsIndex args 1, jsIndex args 2]).2.1)
              (.num (res [jsIndex args 0, jsIndex args 1, jsIndex args 2]).2.2.1)) ::
          .useProgramOp "lightVert" "lightTextureFrag" :: r.gl.ops⟩ } := by
  simp only [pointLight, h]
  rfl

lemma pointLight_of_error (res : ColorResolver) (args : List JSVal)
    (r : Renderer) (e : String) (h : extractVector args = .error e) :
    pointLight res args r =
      .error (e, { r with
        gl := ⟨.uniformOp ("uPointLightColor[" ++
            toString r.pointLightCount ++ "]")
            (.u3f (.num (res [jsIndex args 0, jsIndex args 1, jsIndex args 2]).1)
              (.num (res [jsIndex args 0, jsIndex args 1, jsIndex args 2]).2.1)
              (.num (res [jsIndex args 0, jsIndex args 1, jsIndex args 2]).2.2.1)) ::
          .useProgramOp "lightVert" "lightTextureFrag" :: r.gl.ops⟩ }) := by
  simp only [pointLight, h]
  rfl

lemma stateOf_ok (r : Renderer) : stateOf (.ok r) = r := rfl

/-! ### Run lemmas: counters over consecutive registrations -/

lemma runAmbient_cons (res : ColorResolver) (a : List JSVal)
    (l : List (List JSVal)) (r : Renderer) :
    runAmbient res (a :: l) r = runAmbient res l (ambientLight res a r) := rfl

lemma runAmbient_count (res : ColorResolver) (argss : List (List JSVal)) :
    ∀ r : Renderer, (runAmbient res argss r).ambientLightCount =
      r.ambientLightCount + argss.length := by
  induction argss with
  | nil => intro r; rfl
  | cons a l ih =>
    intro r
    rw [runAmbient_cons, ih, ambientLight_eq]
    simp
    omega

lemma runDirectional_cons (res : ColorResolver) (a : List JSVal)
    (l : List (List JSVal)) (r : Renderer) :
    runDirectional res (a :: l) r =
      runDirectional res l (stateOf (directionalLight res a r)) := rfl

lemma runDirectional_count (res : ColorResolver) (argss : List (List JSVal)) :
    ∀ r : Renderer, (∀ a ∈ argss, lastIsNum a = true) →
      (runDirectional res argss r).directionalLightCount =
        r.directionalLightCount + argss.length := by
  induction argss with
  | nil => intro r _; rfl
  | cons a l ih =>
    intro r h
    rw [runDirectional_cons,
      directionalLight_of_extract res a r _ _ _
        (extractVector_num a (h a (by simp))), stateOf_ok,
      ih _ (fun b hb => h b (by simp [hb]))]
    simp
    omega

lemma runPoint_cons (res : ColorResolver) (a : List JSVal)
    (l : List (List JSVal)) (r : Renderer) :
    runPoint res (a :: l) r =
      runPoint res l (stateOf (pointLight res a r)) := rfl

lemma runPoint_count (res : ColorResolver) (argss : List (List JSVal)) :
    ∀ r : Renderer, (∀ a ∈ argss, lastIsNum a = true) →
      (runPoint res argss r).pointLightCount =
        r.pointLightCount + argss.length := by
  induction argss with
  | nil => intro r _; rfl
  | cons a l ih =>
    intro r h
    rw [runPoint_cons,
      pointLight_of_extract res a r _ _ _
        (extractVector_num a (h a (by simp))), stateOf_ok,
      ih _ (fun b hb => h b (by simp [hb]))]
    simp
    omega

lemma runAmbient_take_succ (res : ColorResolver) (argss : List (List JSVal))
    (r0 : Renderer) (i : Nat) (h : i < argss.length) :
    runAmbient res (argss.take (i + 1)) r0 =
      ambientLight res argss[i] (runAmbient res (argss.take i) r0) := by
  rw [← List.take_concat_get' argss i h, runAmbient, List.foldl_append]
  rfl

lemma runDirectional_take_succ (res : ColorResolver)
    (argss : List (List JSVal)) (r0 : Renderer) (i : Nat)
    (h : i < argss.length) :
    runDirectional res (argss.take (i + 1)) r0 =
      stateOf (directionalLight res argss[i]
        (runDirectional res (argss.take i) r0)) := by
  rw [← List.take_concat_get' argss i h, runDirectional, List.foldl_append]
  rfl

lemma runPoint_take_succ (res : ColorResolver) (argss : List (List JSVal))
    (r0 : Renderer) (i : Nat) (h : i < argss.length) :
    runPoint res (argss.take (i + 1)) r0 =
      stateOf (pointLight res argss[i]
        (runPoint res (argss.take i) r0)) := by
  rw [← List.take_concat_get' argss i h, runPoint, List.foldl_append]
  rfl

/-- C1: for every sequence of consecutive registrations of one light
type (ambient, directional, or point) in one frame starting from
counter 0, the (i+1)-th call (0-indexed `i`) finds the counter at `i`,
computes its indexed uniform slot name(s) with that pre-increment
value — so light `i` occupies index `i` — and immediately afterwards
the type's aggregate count uniform holds the post-increment value
`i + 1`, the number of registrations so far; after all `N` calls the
counter equals `N`. -/
theorem lights_slot_indexing (res : ColorResolver)
    (argss dargss pargss : List (List JSVal)) (r0 : Renderer)
    (ha : r0.ambientLightCount = 0)
    (hd : r0.directionalLightCount = 0)
    (hp : r0.pointLightCount = 0)
    (hdn : ∀ a ∈ dargss, lastIsNum a = true)
    (hpn : ∀ a ∈ pargss, lastIsNum a = true)
    (i : Nat) (hia : i < argss.length) (hid : i < dargss.length)
    (hip : i < pargss.length) :
    ((runAmbient res (argss.take i) r0).ambientLightCount = i ∧
     runAmbient res (argss.take (i + 1)) r0 =
       { runAmbient res (argss.take i) r0 with
         ambientLightCount := i + 1,
         gl := ⟨.uniformOp "uAmbientLightCount" (.u1i (i + 1)) ::
           .uniformOp "uMaterialColor" (.u4f 1 1 1 1) ::
           .uniformOp ("uAmbientColor[" ++ toString i ++ "]")
             (.u3f (.num (res argss[i]).1) (.num (res argss[i]).2.1)
               (.num (res argss[i]).2.2.1)) ::
           .useProgramOp "lightVert" "lightTextureFrag" ::
           (runAmbient res (argss.take i) r0).gl.ops⟩ } ∧
     (runAmbient res (argss.take (i + 1)) r0).gl.getUniform
       "uAmbientLightCount" = some (.u1i (i + 1))) ∧
    ((runDirectional res (dargss.take i) r0).directionalLightCount = i ∧
     directionalLight res dargss[i] (runDirectional res (dargss.take i) r0) =
       .ok (runDirectional res (dargss.take (i + 1)) r0) ∧
     runDirectional res (dargss.take (i + 1)) r0 =
       { runDirectional res (dargss.take i) r0 with
         directionalLightCount := i + 1,
         gl := ⟨.uniformOp "uDirectionalLightCount" (.u1i (i + 1)) ::
           .uniformOp "uMaterialColor" (.u4f 1 1 1 1) ::
           .uniformOp ("uLightingDirection[" ++ toString i ++ "]")
             (.u3f (jsIndex dargss[i] ((dargss[i].length : Int) - 3))
               (jsIndex dargss[i] ((dargss[i].length : Int) - 2))
               (jsIndex dargss[i] ((dargss[i].length : Int) - 1))) ::
           .uniformOp ("uDirectionalColor[" ++ toString i ++ "]")
             (.u3f (.num (res [jsIndex dargss[i] 0, jsIndex dargss[i] 1,
                 jsIndex dargss[i] 2]).1)
               (.num (res [jsIndex dargss[i] 0, jsIndex dargss[i] 1,
                 jsIndex dargss[i] 2]).2.1)
               (.num (res [jsIndex dargss[i] 0, jsIndex dargss[i] 1,
                 jsIndex dargss[i] 2]).2.2.1)) ::
           .useProgramOp "lightVert" "lightTextureFrag" ::
           (runDirectional res (dargss.take i) r0).gl.ops⟩ } ∧
     (runDirectional res (dargss.take (i + 1)) r0).gl.getUniform
       "uDirectionalLightCount" = some (.u1i (i + 1))) ∧
    ((runPoint res (pargss.take i) r0).pointLightCount = i ∧
     pointLight res pargss[i] (runPoint res (pargss.take i) r0) =
       .ok (runPoint res (pargss.take (i + 1)) r0) ∧
     runPoint res (pargss.take (i + 1)) r0 =
       { runPoint res (pargss.take i) r0 with
         pointLightCount := i + 1,
         gl := ⟨.uniformOp "uPointLightCount" (.u1i (i + 1)) ::
           .uniformOp "uMaterialColor" (.u4f 1 1 1 1) ::
           .uniformOp ("uPointLightLocation[" ++ toString i ++ "]")
             (.u3f (jsIndex pargss[i] ((pargss[i].length : Int) - 3))
               (jsIndex pargss[i] ((pargss[i].length : Int) - 2))
               (jsIndex pargss[i] ((pargss[i].length : Int) - 1))) ::
           .uniformOp ("uPointLightColor[" ++ toString i ++ "]")
             (.u3f (.num (res [jsIndex pargss[i] 0, jsIndex pargss[i] 1,
                 jsIndex pargss[i] 2]).1)
               (.num (res [jsIndex pargss[i] 0, jsIndex pargss[i] 1,
                 jsIndex pargss[i] 2]).2.1)
               (.num (res [jsIndex pargss[i] 0, jsIndex pargss[i] 1,
                 jsIndex pargss[i] 2]).2.2.1)) ::
           .useProgramOp "lightVert" "lightTextureFrag" ::
           (runPoint res (pargss.take i) r0).gl.ops⟩ } ∧
     (runPoint res (pargss.take (i + 1)) r0).gl.getUniform
       "uPointLightCount" = some (.u1i (i + 1))) ∧
    ((runAmbient res argss r0).ambientLightCount = argss.length ∧
     (runDirectional res dargss r0).directionalLightCount = dargss.length ∧
     (runPoint res pargss r0).pointLightCount = pargss.length) := by
  have hA0 : (runAmbient res (argss.take i) r0).ambientLightCount = i := by
    rw [runAmbient_count, ha, List.length_take]
    omega
  have hAstep := runAmbient_take_succ res argss r0 i hia
  have hAblock : runAmbient res (argss.take (i + 1)) r0 =
      { runAmbient res (argss.take i) r0 with
        ambientLightCount := i + 1,
        gl := ⟨.uniformOp "uAmbientLightCount" (.u1i (i + 1)) ::
          .uniformOp "uMaterialColor" (.u4f 1 1 1 1) ::
          .uniformOp ("uAmbientColor[" ++ toString i ++ "]")
            (.u3f (.num (res argss[i]).1) (.num (res argss[i]).2.1)
              (.num (res argss[i]).2.2.1)) ::
          .useProgramOp "lightVert" "lightTextureFrag" ::
          (runAmbient res (argss.take i) r0).gl.ops⟩ } := by
    rw [hAstep, ambientLight_eq, hA0]
  have hD0 : (runDirectional res (dargss.take i) r0).directionalLightCount
      = i := by
    rw [runDirectional_count res _ _
      (fun a haa => hdn a (List.take_subset i dargss haa)), hd,
      List.length_take]
    omega
  have hDex := extractVector_num dargss[i] (hdn dargss[i] (List.getElem_mem hid))
  have hDcall := directionalLight_of_extract res dargss[i]
    (runDirectional res (dargss.take i) r0) _ _ _ hDex
  have hDstep := runDirectional_take_succ res dargss r0 i hid
  have hDblock : runDirectional res (dargss.take (i + 1)) r0 =
      { runDirectional res (dargss.take i) r0 with
        directionalLightCount := i + 1,
        gl := ⟨.uniformOp "uDirectionalLightCount" (.u1i (i + 1)) ::
          .uniformOp "uMaterialColor" (.u4f 1 1 1 1) ::
          .uniformOp ("uLightingDirection[" ++ toString i ++ "]")
            (.u3f (jsIndex dargss[i] ((dargss[i].length : Int) - 3))
              (jsIndex dargss[i] ((dargss[i].length : Int) - 2))
              (jsIndex dargss[i] ((dargss[i].length : Int) - 1))) ::
          .uniformOp ("uDirectionalColor[" ++ toString i ++ "]")
            (.u3f (.num (res [jsIndex dargss[i] 0, jsIndex dargss[i] 1,
                jsIndex dargss[i] 2]).1)
              (.num (res [jsIndex dargss[i] 0, jsIndex dargss[i] 1,
                jsIndex dargss[i] 2]).2.1)
              (.num (res [jsIndex dargss[i] 0, jsIndex dargss[i] 1,
                jsIndex dargss[i] 2]).2.2.1)) ::
          .useProgramOp "lightVert" "lightTextureFrag" ::
          (runDirectional res (dargss.take i) r0).gl.ops⟩ } := by
    rw [hDstep, hDcall, stateOf_ok, hD0]
  have hP0 : (runPoint res (pargss.take i) r0).pointLightCount = i := by
    rw [runPoint_count res _ _
      (fun a haa => hpn a (List.take_subset i pargss haa)), hp,
      List.length_take]
    omega
  have hPex := extractVector_num pargss[i] (hpn pargss[i] (List.getElem_mem hip))
  have hPcall := pointLight_of_extract res pargss[i]
    (runPoint res (pargss.take i) r0) _ _ _ hPex
  have hPstep := runPoint_take_succ res pargss r0 i hip
  have hPblock : runPoint res (pargss.take (i + 1)) r0 =
      { runPoint res (pargss.take i) r0 with
        pointLightCount := i + 1,
        gl := ⟨.uniformOp "uPointLightCount" (.u1i (i + 1)) ::
          .uniformOp "uMaterialColor" (.u4f 1 1 1 1) ::
          .uniformOp ("uPointLightLocation[" ++ toString i ++ "]")
            (.u3f (jsIndex pargss[i] ((pargss[i].length : Int) - 3))
              (jsIndex pargss[i] ((pargss[i].length : Int) - 2))
              (jsIndex pargss[i] ((pargss[i].length : Int) - 1))) ::
          .uniformOp ("uPointLightColor[" ++ toString i ++ "]")
            (.u3f (.num (res [jsIndex pargss[i] 0, jsIndex pargss[i] 1,
                jsIndex pargss[i] 2]).1)
              (.num (res [jsIndex pargss[i] 0, jsIndex pargss[i] 1,
                jsIndex pargss[i] 2]).2.1)
              (.num (res [jsIndex pargss[i] 0, jsIndex pargss[i] 1,
                jsIndex pargss[i] 2]).2.2.1)) ::
          .useProgramOp "lightVert" "lightTextureFrag" ::
          (runPoint res (pargss.take i) r0).gl.ops⟩ } := by
    rw [hPstep, hPcall, stateOf_ok, hP0]
  refine ⟨⟨hA0, hAblock, ?_⟩, ⟨hD0, ?_, hDblock, ?_⟩, ⟨hP0, ?_, hPblock, ?_⟩,
    ?_, ?_, ?_⟩
  · rw [hAblock]; rfl
  · rw [hDblock, hDcall, hD0]
  · rw [hDblock]; rfl
  · rw [hPblock, hPcall, hP0]
  · rw [hPblock]; rfl
  · rw [runAmbient_count, ha]; omega
  · rw [runDirectional_count res dargss r0 hdn, hd]; omega
  · rw [runPoint_count res pargss r0 hpn, hp]; omega

/-- Witness for `lights_slot_indexing`: a one-call run of each light
type from a fresh renderer; after the first ambient call the ambient
count uniform reads 1. -/
theorem lights_slot_indexing_witness :
    (runAmbient testResolve ([[JSVal.num 150]].take (0 + 1))
      initRenderer).gl.getUniform "uAmbientLightCount" =
      some (.u1i (0 + 1)) :=
  (lights_slot_indexing testResolve [[JSVal.num 150]]
    [[.num 1, .num 2, .num 3, .num 4, .num 5, .num 6]]
    [[.num 7, .num 8, .num 9, .num 1]] initRenderer rfl rfl rfl
    (by decide) (by decide) 0 (by decide) (by decide) (by decide)).1.2.2

/-! ### Uniform lookup over a trace, and disjointness of uniform names -/

lemma getUniform_cons_eq (n : String) (v : UniformValue) (ops : List GLOp) :
    GLState.getUniform ⟨.uniformOp n v :: ops⟩ n = some v := by
  simp [GLState.getUniform, List.findSome?_cons]

lemma getUniform_cons_ne (n : String) (v : UniformValue) (ops : List GLOp)
    (uname : String) (h : ¬ n = uname) :
    GLState.getUniform ⟨.uniformOp n v :: ops⟩ uname =
      GLState.getUniform ⟨ops⟩ uname := by
  simp [GLState.getUniform, List.findSome?_cons, h]

lemma ambientCount_ne_ambientColor (s : String) :
    ¬ "uAmbientLightCount" = "uAmbientColor[" ++ s ++ "]" := by
  intro h
  have h2 := congrArg String.data h
  simp [String.data_append] at h2

lemma materialColor_ne_ambientColor (s : String) :
    ¬ "uMaterialColor" = "uAmbientColor[" ++ s ++ "]" := by
  intro h
  have h2 := congrArg String.data h
  simp [String.data_append] at h2

lemma dirCount_ne_lightingDirection (s : String) :
    ¬ "uDirectionalLightCount" = "uLightingDirection[" ++ s ++ "]" := by
  intro h
  have h2 := congrArg String.data h
  simp [String.data_append] at h2

lemma materialColor_ne_lightingDirection (s : String) :
    ¬ "uMaterialColor" = "uLightingDirection[" ++ s ++ "]" := by
  intro h
  have h2 := congrArg String.data h
  simp [String.data_append] at h2

lemma dirCount_ne_directionalColor (s : String) :
    ¬ "uDirectionalLightCount" = "uDirectionalColor[" ++ s ++ "]" := by
  intro h
  have h2 := congrArg String.data h
  simp [String.data_append] at h2

lemma materialColor_ne_directionalColor (s : String) :
    ¬ "uMaterialColor" = "uDirectionalColor[" ++ s ++ "]" := by
  intro h
  have h2 := congrArg String.data h
  simp [String.data_append] at h2

lemma lightingDirection_ne_directionalColor (s t : String) :
    ¬ "uLightingDirection[" ++ s ++ "]" = "uDirectionalColor[" ++ t ++ "]" := by
  intro h
  have h2 := congrArg String.data h
  simp [String.data_append] at h2

lemma pointCount_ne_pointLocation (s : String) :
    ¬ "uPointLightCount" = "uPointLightLocation[" ++ s ++ "]" := by
  intro h
  have h2 := congrArg String.data h
  simp [String.data_append] at h2

lemma materialColor_ne_pointLocation (s : String) :
    ¬ "uMaterialColor" = "uPointLightLocation[" ++ s ++ "]" := by
  intro h
  have h2 := congrArg String.data h
  simp [String.data_append] at h2

lemma pointCount_ne_pointColor (s : String) :
    ¬ "uPointLightCount" = "uPointLightColor[" ++ s ++ "]" := by
  intro h
  have h2 := congrArg String.data h
  simp [String.data_append] at h2

lemma materialColor_ne_pointColor (s : String) :
    ¬ "uMaterialColor" = "uPointLightColor[" ++ s ++ "]" := by
  intro h
  have h2 := congrArg String.data h
  simp [String.data_append] at h2

lemma pointLocation_ne_pointColor (s t : String) :
    ¬ "uPointLightLocation[" ++ s ++ "]" = "uPointLightColor[" ++ t ++ "]" := by
  intro h
  have h2 := congrArg String.data h
  simp [String.data_append] at h2

/-- C4: for `directionalLight` and `pointLight`, three trailing numeric
scalars `x, y, z` and a single trailing vector-like object with fields
`x, y, z` produce identical calls; the numeric path takes the last
three positional arguments in order, the object path reads the `x`,
`y`, `z` fields of the last argument, and the written indexed geometry
uniform is the same 3-float vector in both shapes. -/
theorem geometry_scalar_vs_vector (res : ColorResolver) (r : Renderer)
    (v1 v2 v3 x y z : Rat) :
    directionalLight res [.num v1, .num v2, .num v3, .num x, .num y, .num z] r =
      directionalLight res [.num v1, .num v2, .num v3, .vecObj x y z] r ∧
    pointLight res [.num v1, .num v2, .num v3, .num x, .num y, .num z] r =
      pointLight res [.num v1, .num v2, .num v3, .vecObj x y z] r ∧
    extractVector [.num v1, .num v2, .num v3, .num x, .num y, .num z] =
      .ok (.num x, .num y, .num z) ∧
    extractVector [.num v1, .num v2, .num v3, .vecObj x y z] =
      .ok (.num x, .num y, .num z) ∧
    getField (.vecObj x y z) "x" = .ok (.num x) ∧
    getField (.vecObj x y z) "y" = .ok (.num y) ∧
    getField (.vecObj x y z) "z" = .ok (.num z) ∧
    (stateOf (directionalLight res
        [.num v1, .num v2, .num v3, .num x, .num y, .num z] r)).gl.getUniform
      ("uLightingDirection[" ++ toString r.directionalLightCount ++ "]") =
      some (.u3f (.num x) (.num y) (.num z)) ∧
    (stateOf (pointLight res
        [.num v1, .num v2, .num v3, .vecObj x y z] r)).gl.getUniform
      ("uPointLightLocation[" ++ toString r.pointLightCount ++ "]") =
      some (.u3f (.num x) (.num y) (.num z)) := by
  have hEd : extractVector [.num v1, .num v2, .num v3, .num x, .num y, .num z] =
      .ok (.num x, .num y, .num z) := rfl
  have hEo : extractVector [.num v1, .num v2, .num v3, .vecObj x y z] =
      .ok (.num x, .num y, .num z) := rfl
  refine ⟨?_, ?_, rfl, rfl, rfl, rfl, rfl, ?_, ?_⟩
  · rw [directionalLight_of_extract res _ r _ _ _ hEd,
      directionalLight_of_extract res _ r _ _ _ hEo]
    rfl
  · rw [pointLight_of_extract res _ r _ _ _ hEd,
      pointLight_of_extract res _ r _ _ _ hEo]
    rfl
  · rw [directionalLight_of_extract res _ r _ _ _ hEd, stateOf_ok]
    rw [getUniform_cons_ne _ _ _ _ (dirCount_ne_lightingDirection _),
      getUniform_cons_ne _ _ _ _ (materialColor_ne_lightingDirection _),
      getUniform_cons_eq]
  · rw [pointLight_of_extract res _ r _ _ _ hEo, stateOf_ok]
    rw [getUniform_cons_ne _ _ _ _ (pointCount_ne_pointLocation _),
      getUniform_cons_ne _ _ _ _ (materialColor_ne_pointLocation _),
      getUniform_cons_eq]

/-- C5: every successful call to any of the three light-registration
operations unconditionally writes `uMaterialColor` with RGBA
`(1,1,1,1)` on the active shader, whatever the prior state (in
particular whether or not a material was previously set). -/
theorem material_default_white (res : ColorResolver) (args : List JSVal)
    (r : Renderer) :
    (ambientLight res args r).gl.getUniform "uMaterialColor" =
      some (.u4f 1 1 1 1) ∧
    (∀ r', directionalLight res args r = .ok r' →
      r'.gl.getUniform "uMaterialColor" = some (.u4f 1 1 1 1)) ∧
    (∀ r', pointLight res args r = .ok r' →
      r'.gl.getUniform "uMaterialColor" = some (.u4f 1 1 1 1)) := by
  refine ⟨?_, ?_, ?_⟩
  · rw [ambientLight_eq]
    rw [getUniform_cons_ne _ _ _ _ (by decide), getUniform_cons_eq]
  · intro r' h
    cases hE : extractVector args with
    | error e =>
      rw [directionalLight_of_error res args r e hE] at h
      exact absurd h (by simp)
    | ok v =>
      obtain ⟨xx, yy, zz⟩ := v
      rw [directionalLight_of_extract res args r xx yy zz hE] at h
      obtain rfl : _ = r' := Except.ok.inj h
      rw [getUniform_cons_ne _ _ _ _ (by decide), getUniform_cons_eq]
  · intro r' h
    cases hE : extractVector args with
    | error e =>
      rw [pointLight_of_error res args r e hE] at h
      exact absurd h (by simp)
    | ok v =>
      obtain ⟨xx, yy, zz⟩ := v
      rw [pointLight_of_extract res args r xx yy zz hE] at h
      obtain rfl : _ = r' := Except.ok.inj h
      rw [getUniform_cons_ne _ _ _ _ (by decide), getUniform_cons_eq]

/-- Witness for `material_default_white` at a concrete call. -/
theorem material_default_white_witness :
    (stateOf (pointLight testResolve
        [.num 250, .num 250, .num 250, .num 1, .num 2, .num 3]
        initRenderer)).gl.getUniform "uMaterialColor" =
      some (.u4f 1 1 1 1) :=
  (material_default_white testResolve
    [.num 250, .num 250, .num 250, .num 1, .num 2, .num 3]
    initRenderer).2.2 _ rfl

/-- C7: every successful light-registration call increments exactly its
own type's counter by 1 and leaves the other two counters unchanged;
a call that throws leaves all three counters unchanged; no operation
decreases a counter. -/
theorem counters_one_increment (res : ColorResolver) (args : List JSVal)
    (r : Renderer) :
    ((ambientLight res args r).ambientLightCount = r.ambientLightCount + 1 ∧
     (ambientLight res args r).directionalLightCount =
       r.directionalLightCount ∧
     (ambientLight res args r).pointLightCount = r.pointLightCount) ∧
    (∀ r', directionalLight res args r = .ok r' →
      r'.directionalLightCount = r.directionalLightCount + 1 ∧
      r'.ambientLightCount = r.ambientLightCount ∧
      r'.pointLightCount = r.pointLightCount) ∧
    (∀ e r', directionalLight res args r = .error (e, r') →
      r'.ambientLightCount = r.ambientLightCount ∧
      r'.directionalLightCount = r.directionalLightCount ∧
      r'.pointLightCount = r.pointLightCount) ∧
    (∀ r', pointLight res args r = .ok r' →
      r'.pointLightCount = r.pointLightCount + 1 ∧
      r'.ambientLightCount = r.ambientLightCount ∧
      r'.directionalLightCount = r.directionalLightCount) ∧
    (∀ e r', pointLight res args r = .error (e, r') →
      r'.ambientLightCount = r.ambientLightCount ∧
      r'.directionalLightCount = r.directionalLightCount ∧
      r'.pointLightCount = r.pointLightCount) := by
  refine ⟨⟨rfl, rfl, rfl⟩, ?_, ?_, ?_, ?_⟩
  · intro r' h
    cases hE : extractVector args with
    | error e =>
      rw [directionalLight_of_error res args r e hE] at h
      exact absurd h (by simp)
    | ok v =>
      obtain ⟨xx, yy, zz⟩ := v
      rw [directionalLight_of_extract res args r xx yy zz hE] at h
      obtain rfl : _ = r' := Except.ok.inj h
      exact ⟨rfl, rfl, rfl⟩
  · intro e r' h
    cases hE : extractVector args with
    | error e2 =>
      rw [directionalLight_of_error res args r e2 hE] at h
      obtain ⟨-, rfl⟩ : e2 = e ∧ _ = r' := Prod.mk.injEq .. ▸ Except.error.inj h
      exact ⟨rfl, rfl, rfl⟩
    | ok v =>
      obtain ⟨xx, yy, zz⟩ := v
      rw [directionalLight_of_extract res args r xx yy zz hE] at h
      exact absurd h (by simp)
  · intro r' h
    cases hE : extractVector args with
    | error e =>
      rw [pointLight_of_error res args r e hE] at h
      exact absurd h (by simp)
    | ok v =>
      obtain ⟨xx, yy, zz⟩ := v
      rw [pointLight_of_extract res args r xx yy zz hE] at h
      obtain rfl : _ = r' := Except.ok.inj h
      exact ⟨rfl, rfl, rfl⟩
  · intro e r' h
    cases hE : extractVector args with
    | error e2 =>
      rw [pointLight_of_error res args r e2 hE] at h
      obtain ⟨-, rfl⟩ : e2 = e ∧ _ = r' := Prod.mk.injEq .. ▸ Except.error.inj h
      exact ⟨rfl, rfl, rfl⟩
    | ok v =>
      obtain ⟨xx, yy, zz⟩ := v
      rw [pointLight_of_extract res args r xx yy zz hE] at h
      exact absurd h (by simp)

/-- Witness for `counters_one_increment` at a concrete call. -/
theorem counters_one_increment_witness :
    (stateOf (directionalLight testResolve
        [.num 250, .num 250, .num 250, .num 1, .num 2, .num 3]
        initRenderer)).directionalLightCount = 0 + 1 :=
  ((counters_one_increment testResolve
    [.num 250, .num 250, .num 250, .num 1, .num 2, .num 3]
    initRenderer).2.1 _ rfl).1

/-- C8: every light-registration call, of any of the three types,
first activates the shader program resolved from the name pair
`('lightVert', 'lightTextureFrag')` on the GL context and only then
performs its uniform writes: the new portion of the GL trace is some
uniform writes on top of that one program activation. -/
theorem shared_program_first (res : ColorResolver) (args : List JSVal)
    (r : Renderer) :
    (∃ ws, (ambientLight res args r).gl.ops =
        ws ++ .useProgramOp "lightVert" "lightTextureFrag" :: r.gl.ops ∧
      ∀ o ∈ ws, o.isUniformWrite = true) ∧
    (∃ ws, (stateOf (directionalLight res args r)).gl.ops =
        ws ++ .useProgramOp "lightVert" "lightTextureFrag" :: r.gl.ops ∧
      ∀ o ∈ ws, o.isUniformWrite = true) ∧
    (∃ ws, (stateOf (pointLight res args r)).gl.ops =
        ws ++ .useProgramOp "lightVert" "lightTextureFrag" :: r.gl.ops ∧
      ∀ o ∈ ws, o.isUniformWrite = true) := by
  refine ⟨?_, ?_, ?_⟩
  · refine ⟨[.uniformOp "uAmbientLightCount" (.u1i (r.ambientLightCount + 1)),
      .uniformOp "uMaterialColor" (.u4f 1 1 1 1),
      .uniformOp ("uAmbientColor[" ++ toString r.ambientLightCount ++ "]")
        (.u3f (.num (res args).1) (.num (res args).2.1)
          (.num (res args).2.2.1))], ?_, ?_⟩
    · rw [ambientLight_eq]; rfl
    · simp [GLOp.isUniformWrite]
  · cases hE : extractVector args with
    | error e =>
      refine ⟨[.uniformOp
        ("uDirectionalColor[" ++ toString r.directionalLightCount ++ "]")
        (.u3f (.num (res [jsIndex args 0, jsIndex args 1, jsIndex args 2]).1)
          (.num (res [jsIndex args 0, jsIndex args 1, jsIndex args 2]).2.1)
          (.num (res [jsIndex args 0, jsIndex args 1,
            jsIndex args 2]).2.2.1))], ?_, ?_⟩
      · rw [directionalLight_of_error res args r e hE]; rfl
      · simp [GLOp.isUniformWrite]
    | ok v =>
      obtain ⟨xx, yy, zz⟩ := v
      refine ⟨[.uniformOp "uDirectionalLightCount"
          (.u1i (r.directionalLightCount + 1)),
        .uniformOp "uMaterialColor" (.u4f 1 1 1 1),
        .uniformOp ("uLightingDirection[" ++
          toString r.directionalLightCount ++ "]") (.u3f xx yy zz),
        .uniformOp ("uDirectionalColor[" ++
          toString r.directionalLightCount ++ "]")
          (.u3f (.num (res [jsIndex args 0, jsIndex args 1, jsIndex args 2]).1)
            (.num (res [jsIndex args 0, jsIndex args 1, jsIndex args 2]).2.1)
            (.num (res [jsIndex args 0, jsIndex args 1,
              jsIndex args 2]).2.2.1))], ?_, ?_⟩
      · rw [directionalLight_of_extract res args r xx yy zz hE]; rfl
      · simp [GLOp.isUniformWrite]
  · cases hE : extractVector args with
    | error e =>
      refine ⟨[.uniformOp
        ("uPointLightColor[" ++ toString r.pointLightCount ++ "]")
        (.u3f (.num (res [jsIndex args 0, jsIndex args 1, jsIndex args 2]).1)
          (.num (res [jsIndex args 0, jsIndex args 1, jsIndex args 2]).2.1)
          (.num (res [jsIndex args 0, jsIndex args 1,
            jsIndex args 2]).2.2.1))], ?_, ?_⟩
      · rw [pointLight_of_error res args r e hE]; rfl
      · simp [GLOp.isUniformWrite]
    | ok v =>
      obtain ⟨xx, yy, zz⟩ := v
      refine ⟨[.uniformOp "uPointLightCount" (.u1i (r.pointLightCount + 1)),
        .uniformOp "uMaterialColor" (.u4f 1 1 1 1),
        .uniformOp ("uPointLightLocation[" ++
          toString r.pointLightCount ++ "]") (.u3f xx yy zz),
        .uniformOp ("uPointLightColor[" ++ toString r.pointLightCount ++ "]")
          (.u3f (.num (res [jsIndex args 0, jsIndex args 1, jsIndex args 2]).1)
            (.num (res [jsIndex args 0, jsIndex args 1, jsIndex args 2]).2.1)
            (.num (res [jsIndex args 0, jsIndex args 1,
              jsIndex args 2]).2.2.1))], ?_, ?_⟩
      · rw [pointLight_of_extract res args r xx yy zz hE]; rfl
      · simp [GLOp.isUniformWrite]

lemma stateOf_error (e : String) (r : Renderer) :
    stateOf (.error (e, r)) = r := rfl

/-- C6: every light-registration call resolves its color argument into
4 channels but forwards only the first 3 (RGB) to the indexed
light-color uniform; the resolved alpha channel is accepted but never
forwarded — two resolvers agreeing on RGB (but not on alpha) produce
identical calls. -/
theorem color_rgb_forwarded (res res2 : ColorResolver) (args : List JSVal)
    (r : Renderer) :
    (ambientLight res args r).gl.getUniform
      ("uAmbientColor[" ++ toString r.ambientLightCount ++ "]") =
      some (.u3f (.num (res args).1) (.num (res args).2.1)
        (.num (res args).2.2.1)) ∧
    (stateOf (directionalLight res args r)).gl.getUniform
      ("uDirectionalColor[" ++ toString r.directionalLightCount ++ "]") =
      some (.u3f (.num (res [jsIndex args 0, jsIndex args 1, jsIndex args 2]).1)
        (.num (res [jsIndex args 0, jsIndex args 1, jsIndex args 2]).2.1)
        (.num (res [jsIndex args 0, jsIndex args 1, jsIndex args 2]).2.2.1)) ∧
    (stateOf (pointLight res args r)).gl.getUniform
      ("uPointLightColor[" ++ toString r.pointLightCount ++ "]") =
      some (.u3f (.num (res [jsIndex args 0, jsIndex args 1, jsIndex args 2]).1)
        (.num (res [jsIndex args 0, jsIndex args 1, jsIndex args 2]).2.1)
        (.num (res [jsIndex args 0, jsIndex args 1, jsIndex args 2]).2.2.1)) ∧
    ((∀ a, rgbOf (res a) = rgbOf (res2 a)) →
      ambientLight res args r = ambientLight res2 args r ∧
      directionalLight res args r = directionalLight res2 args r ∧
      pointLight res args r = pointLight res2 args r) := by
  refine ⟨?_, ?_, ?_, ?_⟩
  · rw [ambientLight_eq]
    rw [getUniform_cons_ne _ _ _ _ (ambientCount_ne_ambientColor _),
      getUniform_cons_ne _ _ _ _ (materialColor_ne_ambientColor _),
      getUniform_cons_eq]
  · cases hE : extractVector args with
    | error e =>
      rw [directionalLight_of_error res args r e hE, stateOf_error,
        getUniform_cons_eq]
    | ok v =>
      obtain ⟨xx, yy, zz⟩ := v
      rw [directionalLight_of_extract res args r xx yy zz hE, stateOf_ok]
      rw [getUniform_cons_ne _ _ _ _ (dirCount_ne_directionalColor _),
        getUniform_cons_ne _ _ _ _ (materialColor_ne_directionalColor _),
        getUniform_cons_ne _ _ _ _ (lightingDirection_ne_directionalColor _ _),
        getUniform_cons_eq]
  · cases hE : extractVector args with
    | error e =>
      rw [pointLight_of_error res args r e hE, stateOf_error,
        getUniform_cons_eq]
    | ok v =>
      obtain ⟨xx, yy, zz⟩ := v
      rw [pointLight_of_extract res args r xx yy zz hE, stateOf_ok]
      rw [getUniform_cons_ne _ _ _ _ (pointCount_ne_pointColor _),
        getUniform_cons_ne _ _ _ _ (materialColor_ne_pointColor _),
        getUniform_cons_ne _ _ _ _ (pointLocation_ne_pointColor _ _),
        getUniform_cons_eq]
  · intro h
    have e1 : (res args).1 = (res2 args).1 :=
      congrArg (fun p => p.1) (h args)
    have e2 : (res args).2.1 = (res2 args).2.1 :=
      congrArg (fun p => p.2.1) (h args)
    have e3 : (res args).2.2.1 = (res2 args).2.2.1 :=
      congrArg (fun p => p.2.2) (h args)
    have f1 : (res [jsIndex args 0, jsIndex args 1, jsIndex args 2]).1 =
        (res2 [jsIndex args 0, jsIndex args 1, jsIndex args 2]).1 :=
      congrArg (fun p => p.1) (h [jsIndex args 0, jsIndex args 1, jsIndex args 2])
    have f2 : (res [jsIndex args 0, jsIndex args 1, jsIndex args 2]).2.1 =
        (res2 [jsIndex args 0, jsIndex args 1, jsIndex args 2]).2.1 :=
      congrArg (fun p => p.2.1)
        (h [jsIndex args 0, jsIndex args 1, jsIndex args 2])
    have f3 : (res [jsIndex args 0, jsIndex args 1, jsIndex args 2]).2.2.1 =
        (res2 [jsIndex args 0, jsIndex args 1, jsIndex args 2]).2.2.1 :=
      congrArg (fun p => p.2.2)
        (h [jsIndex args 0, jsIndex args 1, jsIndex args 2])
    refine ⟨?_, ?_, ?_⟩
    · rw [ambientLight_eq, ambientLight_eq, e1, e2, e3]
    · simp only [directionalLight]
      rw [f1, f2, f3]
    · simp only [pointLight]
      rw [f1, f2, f3]

/-- Witness for `color_rgb_forwarded` at a concrete call, with two
concrete resolvers differing only in alpha. -/
theorem color_rgb_forwarded_witness :
    ambientLight testResolve [.num 10, .num 20, .num 30, .num 40]
        initRenderer =
      ambientLight (fun a => ((testResolve a).1, (testResolve a).2.1,
        (testResolve a).2.2.1, 0)) [.num 10, .num 20, .num 30, .num 40]
        initRenderer :=
  ((color_rgb_forwarded testResolve
    (fun a => ((testResolve a).1, (testResolve a).2.1,
      (testResolve a).2.2.1, 0))
    [.num 10, .num 20, .num 30, .num 40] initRenderer).2.2.2
    (fun _ => rfl)).1

/-- C2 counterexample: `pointLight(250, 250, 250, "not-a-vector")` does
not fail fatally — in JavaScript, property access on a string yields
`undefined`, so the call completes — and it mutates uniform state: the
indexed color, indexed geometry (with undefined components), material
color and count uniforms are all written, and the counter increments. -/
theorem pointLight_string_tail_cex :
    pointLight testResolve
      [.num 250, .num 250, .num 250, .str "not-a-vector"] initRenderer =
      .ok ⟨0, 0, 1,
        ⟨[.uniformOp "uPointLightCount" (.u1i 1),
          .uniformOp "uMaterialColor" (.u4f 1 1 1 1),
          .uniformOp "uPointLightLocation[0]" (.u3f .undefined .undefined .undefined),
          .uniformOp "uPointLightColor[0]"
            (.u3f (.num (250 / 255)) (.num (250 / 255)) (.num (250 / 255))),
          .useProgramOp "lightVert" "lightTextureFrag"]⟩⟩ ∧
    (stateOf (pointLight testResolve
        [.num 250, .num 250, .num 250, .str "not-a-vector"]
        initRenderer)).gl.getUniform "uPointLightColor[0]" =
      some (.u3f (.num (250 / 255)) (.num (250 / 255)) (.num (250 / 255))) :=
  ⟨rfl, rfl⟩

/-- C2 amended: a trailing geometry argument that is neither numeric
nor exposes `x`, `y`, `z` fields does not make the call fail when it is
a string (or any non-null, non-undefined value): field access yields
`undefined` and the call completes, writing undefined geometry
components.  Only a `null` (or `undefined`) trailing argument throws a
propagated TypeError, and even then the indexed color uniform has
already been mutated before the throw. -/
theorem pointLight_bad_tail_behavior (res : ColorResolver) (r : Renderer)
    (v1 v2 v3 : Rat) (s : String) :
    pointLight res [.num v1, .num v2, .num v3, .str s] r =
      .ok { r with
        pointLightCount := r.pointLightCount + 1,
        gl := ⟨.uniformOp "uPointLightCount" (.u1i (r.pointLightCount + 1)) ::
          .uniformOp "uMaterialColor" (.u4f 1 1 1 1) ::
          .uniformOp ("uPointLightLocation[" ++ toString r.pointLightCount ++
            "]") (.u3f .undefined .undefined .undefined) ::
          .uniformOp ("uPointLightColor[" ++ toString r.pointLightCount ++ "]")
            (.u3f (.num (res [.num v1, .num v2, .num v3]).1)
              (.num (res [.num v1, .num v2, .num v3]).2.1)
              (.num (res [.num v1, .num v2, .num v3]).2.2.1)) ::
          .useProgramOp "lightVert" "lightTextureFrag" :: r.gl.ops⟩ } ∧
    directionalLight res [.num v1, .num v2, .num v3, .str s] r =
      .ok { r with
        directionalLightCount := r.directionalLightCount + 1,
        gl := ⟨.uniformOp "uDirectionalLightCount"
            (.u1i (r.directionalLightCount + 1)) ::
          .uniformOp "uMaterialColor" (.u4f 1 1 1 1) ::
          .uniformOp ("uLightingDirection[" ++
            toString r.directionalLightCount ++ "]")
            (.u3f .undefined .undefined .undefined) ::
          .uniformOp ("uDirectionalColor[" ++
            toString r.directionalLightCount ++ "]")
            (.u3f (.num (res [.num v1, .num v2, .num v3]).1)
              (.num (res [.num v1, .num v2, .num v3]).2.1)
              (.num (res [.num v1, .num v2, .num v3]).2.2.1)) ::
          .useProgramOp "lightVert" "lightTextureFrag" :: r.gl.ops⟩ } ∧
    pointLight res [.num v1, .num v2, .num v3, .null] r =
      .error ("TypeError", { r with
        gl := ⟨.uniformOp ("uPointLightColor[" ++ toString r.pointLightCount ++
            "]")
            (.u3f (.num (res [.num v1, .num v2, .num v3]).1)
              (.num (res [.num v1, .num v2, .num v3]).2.1)
              (.num (res [.num v1, .num v2, .num v3]).2.2.1)) ::
          .useProgramOp "lightVert" "lightTextureFrag" :: r.gl.ops⟩ }) ∧
    directionalLight res [.num v1, .num v2, .num v3, .null] r =
      .error ("TypeError", { r with
        gl := ⟨.uniformOp ("uDirectionalColor[" ++
            toString r.directionalLightCount ++ "]")
            (.u3f (.num (res [.num v1, .num v2, .num v3]).1)
              (.num (res [.num v1, .num v2, .num v3]).2.1)
              (.num (res [.num v1, .num v2, .num v3]).2.2.1)) ::
          .useProgramOp "lightVert" "lightTextureFrag" :: r.gl.ops⟩ }) :=
  ⟨rfl, rfl, rfl, rfl⟩

/-- C3 counterexample: in the 1-argument-color shape
`directionalLight(100, 1, 2, 3)` the written color uniform resolves
`(100, 1, 2)` — the color argument plus the first two geometry
scalars — not the color argument alone, whose resolution would be the
gray `(100, 100, 100)` triple. -/
theorem directional_one_arg_color_cex :
    (stateOf (directionalLight testResolve
        [.num 100, .num 1, .num 2, .num 3] initRenderer)).gl.getUniform
      "uDirectionalColor[0]" =
      some (.u3f (.num (100 / 255)) (.num (1 / 255)) (.num (2 / 255))) ∧
    rgbOf (testResolve [.num 100]) = (100 / 255, 100 / 255, 100 / 255) ∧
    UniformValue.u3f (.num (100 / 255)) (.num (1 / 255)) (.num (2 / 255)) ≠
      .u3f (.num (100 / 255)) (.num (100 / 255)) (.num (100 / 255)) := by
  refine ⟨rfl, rfl, ?_⟩
  intro h
  simp only [UniformValue.u3f.injEq, JSVal.num.injEq] at h
  have h2 := h.2.1
  norm_num at h2

/-- C3 amended: for `directionalLight` and `pointLight` the geometry
vector is the last three positional arguments in both call shapes, and
the written color uniform is always the resolution of the first three
positional arguments: for a 3-argument color followed by three
geometry scalars that is exactly the color specification, but for a
1-argument color followed by three geometry scalars it is the color
argument together with the first two geometry scalars. -/
theorem color_geometry_arg_shapes (res : ColorResolver) (r : Renderer)
    (c rr gg bb x y z : Rat) :
    ((stateOf (directionalLight res
        [.num rr, .num gg, .num bb, .num x, .num y, .num z] r)).gl.getUniform
      ("uDirectionalColor[" ++ toString r.directionalLightCount ++ "]") =
      some (.u3f (.num (res [.num rr, .num gg, .num bb]).1)
        (.num (res [.num rr, .num gg, .num bb]).2.1)
        (.num (res [.num rr, .num gg, .num bb]).2.2.1)) ∧
     (stateOf (directionalLight res
        [.num rr, .num gg, .num bb, .num x, .num y, .num z] r)).gl.getUniform
      ("uLightingDirection[" ++ toString r.directionalLightCount ++ "]") =
      some (.u3f (.num x) (.num y) (.num z))) ∧
    ((stateOf (directionalLight res [.num c, .num x, .num y, .num z]
        r)).gl.getUniform
      ("uDirectionalColor[" ++ toString r.directionalLightCount ++ "]") =
      some (.u3f (.num (res [.num c, .num x, .num y]).1)
        (.num (res [.num c, .num x, .num y]).2.1)
        (.num (res [.num c, .num x, .num y]).2.2.1)) ∧
     (stateOf (directionalLight res [.num c, .num x, .num y, .num z]
        r)).gl.getUniform
      ("uLightingDirection[" ++ toString r.directionalLightCount ++ "]") =
      some (.u3f (.num x) (.num y) (.num z))) ∧
    ((stateOf (pointLight res
        [.num rr, .num gg, .num bb, .num x, .num y, .num z] r)).gl.getUniform
      ("uPointLightColor[" ++ toString r.pointLightCount ++ "]") =
      some (.u3f (.num (res [.num rr, .num gg, .num bb]).1)
        (.num (res [.num rr, .num gg, .num bb]).2.1)
        (.num (res [.num rr, .num gg, .num bb]).2.2.1)) ∧
     (stateOf (pointLight res
        [.num rr, .num gg, .num bb, .num x, .num y, .num z] r)).gl.getUniform
      ("uPointLightLocation[" ++ toString r.pointLightCount ++ "]") =
      some (.u3f (.num x) (.num y) (.num z))) ∧
    ((stateOf (pointLight res [.num c, .num x, .num y, .num z]
        r)).gl.getUniform
      ("uPointLightColor[" ++ toString r.pointLightCount ++ "]") =
      some (.u3f (.num (res [.num c, .num x, .num y]).1)
        (.num (res [.num c, .num x, .num y]).2.1)
        (.num (res [.num c, .num x, .num y]).2.2.1)) ∧
     (stateOf (pointLight res [.num c, .num x, .num y, .num z]
        r)).gl.getUniform
      ("uPointLightLocation[" ++ toString r.pointLightCount ++ "]") =
      some (.u3f (.num x) (.num y) (.num z))) := by
  have hE6 : extractVector [.num rr, .num gg, .num bb, .num x, .num y,
      .num z] = .ok (.num x, .num y, .num z) := rfl
  have hE4 : extractVector [.num c, .num x, .num y, .num z] =
      .ok (.num x, .num y, .num z) := rfl
  refine ⟨⟨?_, ?_⟩, ⟨?_, ?_⟩, ⟨?_, ?_⟩, ⟨?_, ?_⟩⟩
  · rw [directionalLight_of_extract res _ r _ _ _ hE6, stateOf_ok]
    rw [getUniform_cons_ne _ _ _ _ (dirCount_ne_directionalColor _),
      getUniform_cons_ne _ _ _ _ (materialColor_ne_directionalColor _),
      getUniform_cons_ne _ _ _ _ (lightingDirection_ne_directionalColor _ _),
      getUniform_cons_eq]
    rfl
  · rw [directionalLight_of_extract res _ r _ _ _ hE6, stateOf_ok]
    rw [getUniform_cons_ne _ _ _ _ (dirCount_ne_lightingDirection _),
      getUniform_cons_ne _ _ _ _ (materialColor_ne_lightingDirection _),
      getUniform_cons_eq]
  · rw [directionalLight_of_extract res _ r _ _ _ hE4, stateOf_ok]
    rw [getUniform_cons_ne _ _ _ _ (dirCount_ne_directionalColor _),
      getUniform_cons_ne _ _ _ _ (materialColor_ne_directionalColor _),
      getUniform_cons_ne _ _ _ _ (lightingDirection_ne_directionalColor _ _),
      getUniform_cons_eq]
    rfl
  · rw [directionalLight_of_extract res _ r _ _ _ hE4, stateOf_ok]
    rw [getUniform_cons_ne _ _ _ _ (dirCount_ne_lightingDirection _),
      getUniform_cons_ne _ _ _ _ (materialColor_ne_lightingDirection _),
      getUniform_cons_eq]
  · rw [pointLight_of_extract res _ r _ _ _ hE6, stateOf_ok]
    rw [getUniform_cons_ne _ _ _ _ (pointCount_ne_pointColor _),
      getUniform_cons_ne _ _ _ _ (materialColor_ne_pointColor _),
      getUniform_cons_ne _ _ _ _ (pointLocation_ne_pointColor _ _),
      getUniform_cons_eq]
    rfl
  · rw [pointLight_of_extract res _ r _ _ _ hE6, stateOf_ok]
    rw [getUniform_cons_ne _ _ _ _ (pointCount_ne_pointLocation _),
      getUniform_cons_ne _ _ _ _ (materialColor_ne_pointLocation _),
      getUniform_cons_eq]
  · rw [pointLight_of_extract res _ r _ _ _ hE4, stateOf_ok]
    rw [getUniform_cons_ne _ _ _ _ (pointCount_ne_pointColor _),
      getUniform_cons_ne _ _ _ _ (materialColor_ne_pointColor _),
      getUniform_cons_ne _ _ _ _ (pointLocation_ne_pointColor _ _),
      getUniform_cons_eq]
    rfl
  · rw [pointLight_of_extract res _ r _ _ _ hE4, stateOf_ok]
    rw [getUniform_cons_ne _ _ _ _ (pointCount_ne_pointLocation _),
      getUniform_cons_ne _ _ _ _ (materialColor_ne_pointLocation _),
      getUniform_cons_eq]

/-! ### Image module proofs -/

/-- C9: `imageMode(m)` updates the stored image mode only when `m` is
strictly equal to one of the `CORNER`, `CORNERS`, or `CENTER`
constants; for any other argument the call silently leaves the state
unchanged (and, being a total function, raises no error). -/
theorem imageMode_filters (m : JSVal) (st : SketchState) :
    ((m = .str CORNER ∨ m = .str CORNERS ∨ m = .str CENTER) →
      imageMode m st = { st with _imageMode := m }) ∧
    (¬ (m = .str CORNER ∨ m = .str CORNERS ∨ m = .str CENTER) →
      imageMode m st = st) := by
  constructor
  · rintro (rfl | rfl | rfl) <;> rfl
  · intro h
    cases m with
    | str s =>
      have h1 : ¬ s = "corner" := fun hs => h (Or.inl (by rw [hs]; rfl))
      have h2 : ¬ s = "corners" := fun hs => h (Or.inr (Or.inl (by rw [hs]; rfl)))
      have h3 : ¬ s = "center" := fun hs => h (Or.inr (Or.inr (by rw [hs]; rfl)))
      simp [imageMode, strictEqStr, CORNER, CORNERS, CENTER, h1, h2, h3]
    | num v => rfl
    | vecObj x y z => rfl
    | undefined => rfl
    | null => rfl

/-- Witness for `imageMode_filters`: one accepted and one ignored
argument at concrete inputs. -/
theorem imageMode_filters_witness :
    imageMode (.str "corner") ⟨.str "center"⟩ = ⟨.str "corner"⟩ ∧
    imageMode (.num 5) ⟨.str "center"⟩ = ⟨.str "center"⟩ :=
  ⟨(imageMode_filters (.str "corner") ⟨.str "center"⟩).1 (Or.inl rfl),
   (imageMode_filters (.num 5) ⟨.str "center"⟩).2 (by decide)⟩

lemma getD_set_self (l : List Rat) (n : Nat) (a : Rat) (h : n < l.length) :
    (l.set n a).getD n 0 = a := by
  simp [List.getD_eq_getElem?_getD, List.getElem?_set_self, h]

lemma getD_set_ne (l : List Rat) (n m : Nat) (a : Rat) (h : n ≠ m) :
    (l.set n a).getD m 0 = l.getD m 0 := by
  simp [List.getD_eq_getElem?_getD, List.getElem?_set_ne h]

lemma tintLoop_stop (t : Rat × Rat × Rat × Rat) (pixels np : List Rat)
    (i : Nat) (h : ¬ i < pixels.length) : tintLoop t pixels np i = np := by
  rw [tintLoop, if_neg h]

lemma tintLoop_step (t : Rat × Rat × Rat × Rat) (pixels np : List Rat)
    (i : Nat) (h : i < pixels.length) :
    tintLoop t pixels np i =
      tintLoop t pixels
        ((((np.set i (pixels.getD i 0 * t.1 / 255)).set (i + 1)
          (pixels.getD (i + 1) 0 * t.2.1 / 255)).set (i + 2)
          (pixels.getD (i + 2) 0 * t.2.2.1 / 255)).set (i + 3)
          (pixels.getD (i + 3) 0 * t.2.2.2 / 255)) (i + 4) := by
  rw [tintLoop, if_pos h]

lemma tintLoop_length (t : Rat × Rat × Rat × Rat) (pixels : List Rat) :
    ∀ k i np, pixels.length - i ≤ k →
      (tintLoop t pixels np i).length = np.length := by
  intro k
  induction k with
  | zero =>
    intro i np hk
    rw [tintLoop_stop _ _ _ _ (by omega)]
  | succ k ih =>
    intro i np hk
    by_cases hlt : i < pixels.length
    · rw [tintLoop_step _ _ _ _ hlt, ih (i + 4) _ (by omega)]
      simp
    · rw [tintLoop_stop _ _ _ _ hlt]

lemma tintLoop_getD (t : Rat × Rat × Rat × Rat) (pixels : List Rat)
    (h4 : pixels.length % 4 = 0) :
    ∀ k i np j, pixels.length - i ≤ k → i % 4 = 0 →
      pixels.length ≤ np.length →
      (tintLoop t pixels np i).getD j 0 =
        if i ≤ j ∧ j < pixels.length then
          pixels.getD j 0 * tintChannel t (j % 4) / 255
        else np.getD j 0 := by
  intro k
  induction k with
  | zero =>
    intro i np j hk hi hlen
    rw [tintLoop_stop _ _ _ _ (by omega), if_neg (by omega)]
  | succ k ih =>
    intro i np j hk hi hlen
    by_cases hlt : i < pixels.length
    · rw [tintLoop_step _ _ _ _ hlt,
        ih (i + 4) _ j (by omega) (by omega) (by simp; omega)]
      have hbound : i + 4 ≤ pixels.length := by omega
      by_cases hj1 : i + 4 ≤ j ∧ j < pixels.length
      · rw [if_pos hj1, if_pos (by omega)]
      · rw [if_neg hj1]
        by_cases hj2 : i ≤ j ∧ j < pixels.length
        · -- j is one of the four indices written this iteration
          rw [if_pos hj2]
          have hnp : i + 3 < np.length := by omega
          have hj : j = i ∨ j = i + 1 ∨ j = i + 2 ∨ j = i + 3 := by omega
          rcases hj with rfl | rfl | rfl | rfl
          · rw [getD_set_ne _ _ _ _ (by omega), getD_set_ne _ _ _ _ (by omega),
              getD_set_ne _ _ _ _ (by omega),
              getD_set_self _ _ _ (by omega)]
            rw [show j % 4 = 0 from by omega]
            rfl
          · rw [getD_set_ne _ _ _ _ (by omega), getD_set_ne _ _ _ _ (by omega),
              getD_set_self _ _ _ (by simp; omega)]
            rw [show (i + 1) % 4 = 1 from by omega]
            rfl
          · rw [getD_set_ne _ _ _ _ (by omega),
              getD_set_self _ _ _ (by simp; omega)]
            rw [show (i + 2) % 4 = 2 from by omega]
            rfl
          · rw [getD_set_self _ _ _ (by simp; omega)]
            rw [show (i + 3) % 4 = 3 from by omega]
            rfl
        · -- j is below i or beyond the pixel data: untouched
          rw [if_neg hj2]
          rw [getD_set_ne _ _ _ _ (by omega), getD_set_ne _ _ _ _ (by omega),
            getD_set_ne _ _ _ _ (by omega), getD_set_ne _ _ _ _ (by omega)]
    · rw [tintLoop_stop _ _ _ _ hlt, if_neg (by omega)]

/-- C10: `_getTintedImageCanvas` never modifies the input image — the
pair it returns carries the image exactly as passed — and produces a
fresh canvas of the same dimensions whose pixel data is, at every
index, the source channel scaled by the matching tint channel divided
by 255; `image()` likewise leaves the source image unchanged whether
or not a tint is set. -/
theorem tinted_canvas_fresh (t : Rat × Rat × Rat × Rat) (img : Canvas)
    (h : img.data.length = 4 * img.width * img.height) :
    (_getTintedImageCanvas t img).1 = img ∧
    (_getTintedImageCanvas t img).2.width = img.width ∧
    (_getTintedImageCanvas t img).2.height = img.height ∧
    (_getTintedImageCanvas t img).2.data.length = img.data.length ∧
    (∀ j, j < img.data.length →
      (_getTintedImageCanvas t img).2.data.getD j 0 =
        img.data.getD j 0 * tintChannel t (j % 4) / 255) ∧
    (∀ tc : Option (Rat × Rat × Rat × Rat), (imageCall tc img).1 = img) := by
  have hrep : (List.replicate (4 * img.width * img.height) (0 : Rat)).length =
      4 * img.width * img.height := List.length_replicate _ _
  have hdata : (_getTintedImageCanvas t img).2.data =
      tintLoop t img.data
        (List.replicate (4 * img.width * img.height) (0 : Rat)) 0 := rfl
  have h2 : img.data.length = 4 * (img.width * img.height) := by
    rw [h, Nat.mul_assoc]
  have hmod : img.data.length % 4 = 0 := by omega
  have hlen2 : img.data.length ≤
      (List.replicate (4 * img.width * img.height) (0 : Rat)).length := by
    rw [hrep]
    omega
  refine ⟨rfl, rfl, rfl, ?_, ?_, ?_⟩
  · rw [hdata, tintLoop_length t img.data img.data.length 0 _ (by omega),
      hrep, h]
  · intro j hj
    rw [hdata, tintLoop_getD t img.data hmod img.data.length 0 _ j (by omega)
      (by omega) hlen2, if_pos ⟨Nat.zero_le j, hj⟩]
  · intro tc
    cases tc with
    | none => rfl
    | some t2 => rfl

/-- Witness for `tinted_canvas_fresh` on a concrete 1×1 RGBA image. -/
theorem tinted_canvas_fresh_witness :
    (_getTintedImageCanvas (255, 51, 0, 102) ⟨1, 1, [10, 20, 30, 40]⟩).1 =
      ⟨1, 1, [10, 20, 30, 40]⟩ ∧
    (_getTintedImageCanvas (255, 51, 0, 102)
      ⟨1, 1, [10, 20, 30, 40]⟩).2.data.getD 2 0 =
      (⟨1, 1, [10, 20, 30, 40]⟩ : Canvas).data.getD 2 0 *
        tintChannel (255, 51, 0, 102) (2 % 4) / 255 :=
  ⟨(tinted_canvas_fresh (255, 51, 0, 102) ⟨1, 1, [10, 20, 30, 40]⟩
      (by decide)).1,
   (tinted_canvas_fresh (255, 51, 0, 102) ⟨1, 1, [10, 20, 30, 40]⟩
      (by decide)).2.2.2.2.1 2 (by decide)⟩

end P5
